import Mathlib

/-
Verification of the scheduling core of the AIReplay proactive-messaging
plugin (src/main.py).  The Python functions are shallowly embedded as
executable Lean definitions:

* strings are Lean strings, with character-list helpers mirroring Python
  string methods (strip, split, lower, containment);
* epoch timestamps (Python floats) are modelled at integer-second
  granularity as `Int`; `timedelta.days` is floor division by 86400,
  which `Int.fdiv` reproduces;
* a `datetime` value is modelled by the record `DT` carrying both its
  epoch value and its broken-down calendar fields (the calendar
  conversion itself is the C library and is not modelled);
* the outcome of one `_proactive_reply` call (provider, LLM and message
  transport) is abstracted as an oracle value `Option (Int × String)`:
  `none` is a failed attempt, `some (ts, text)` a successful one that
  sent `text` at epoch `ts`.  The function never reads
  `consecutive_no_reply_count`, and its state effects on success
  (update `last_ts`, append an assistant history entry) are reproduced
  in `triggerFire`;
* heterogeneous Python values reaching the history normalizer are
  modelled by the inductive type `Val` covering everything reachable
  from `json.loads` plus `vnone` (None) and `vother` (opaque non-JSON
  objects carrying their `str()` rendering); host objects exposing
  `role`/`content` attributes are outside this domain.
-/

namespace AIReplay

/-! ## Python string helpers (character-list level) -/

/-- Python `str.strip()` on a character list: drop whitespace from both
ends.  Lean `Char.isWhitespace` stands in for the Python whitespace
class (identical on ASCII input). -/
def pyStripChars (l : List Char) : List Char :=
  ((l.dropWhile Char.isWhitespace).reverse.dropWhile Char.isWhitespace).reverse

/-- Python `str.strip()`. -/
def pyStrip (s : String) : String :=
  ⟨pyStripChars s.data⟩

/-- Python `str.lower()` on a character list (ASCII-accurate). -/
def lowerL (l : List Char) : List Char :=
  l.map Char.toLower

/-- Python `str.lower()`. -/
def pyLower (s : String) : String :=
  ⟨lowerL s.data⟩

/-- Embeds `s.split(sep, 1)` when the separator occurs: the part before the
first occurrence of `sep` and the part after it; `none` when `sep` does
not occur (so `sep in s` is `(splitFirst sep s).isSome`). -/
def splitFirst (sep : Char) : List Char → Option (List Char × List Char)
  | [] => none
  | c :: cs =>
    if c = sep then some ([], cs)
    else (splitFirst sep cs).map (fun p => (c :: p.1, p.2))

/-- Bool test that `pat` is a prefix of `s`. -/
def prefixOfL : List Char → List Char → Bool
  | [], _ => true
  | _ :: _, [] => false
  | a :: as, b :: bs => a == b && prefixOfL as bs

/-- Bool test that `pat` occurs contiguously inside `s`. -/
def containsL (pat : List Char) : List Char → Bool
  | [] => prefixOfL pat []
  | c :: t => prefixOfL pat (c :: t) || containsL pat t

/-- Python `pat in s` (substring containment). -/
def pyIn (pat s : String) : Bool :=
  containsL pat.data s.data

/-- Decimal digit value of a character, if it is a digit. -/
def digitVal (c : Char) : Option Nat :=
  if c.isDigit then some (c.toNat - 48) else none

/-! ## Clock / time utilities (src/main.py lines 34-53) -/

/-- Hour part of the regex `([01]?\d|2[0-3])` from `_parse_hhmm`:
one digit, or two digits whose value is at most 23 with a leading 0, 1
or 2. -/
def hourOf : List Char → Option Nat
  | [c] => digitVal c
  | [c1, c2] =>
    match digitVal c1, digitVal c2 with
    | some d1, some d2 =>
      if d1 ≤ 1 then some (10 * d1 + d2)
      else if d1 = 2 ∧ d2 ≤ 3 then some (20 + d2)
      else none
    | _, _ => none
  | _ => none

/-- Minute part of the regex `([0-5]\d)` from `_parse_hhmm`: exactly two
digits below 60. -/
def minuteOf : List Char → Option Nat
  | [c1, c2] =>
    match digitVal c1, digitVal c2 with
    | some d1, some d2 => if d1 ≤ 5 then some (10 * d1 + d2) else none
    | _, _ => none
  | _ => none

/-- Embeds `_parse_hhmm(s)` (src/main.py lines 34-40): `None` for the empty
string, otherwise match `^([01]?\d|2[0-3]):([0-5]\d)$` against the
stripped string.  The hour part of the regex contains no colon, so
matching is splitting at the first colon and checking both sides. -/
def parse_hhmm (s : String) : Option (Nat × Nat) :=
  if s = "" then none
  else
    match splitFirst ':' (pyStripChars s.data) with
    | none => none
    | some (h, m) =>
      match hourOf h, minuteOf m with
      | some hh, some mm => some (hh, mm)
      | _, _ => none

/-- A `datetime` value: its epoch timestamp in seconds together with its
broken-down calendar fields in the configured timezone. -/
structure DT where
  epoch : Int
  year : Nat
  month : Nat
  day : Nat
  hour : Nat
  minute : Nat
  second : Nat
  deriving DecidableEq

/-- Embeds `now.time()` as seconds of day; `datetime.time` values compare
lexicographically on (hour, minute, second), which agrees with this
count. -/
def DT.tod (t : DT) : Nat :=
  t.hour * 3600 + t.minute * 60 + t.second

/-- Left-pad a decimal rendering to two digits (`%02d`, `%m`, `%d`,
`%H`, `%M`). -/
def pad2 (n : Nat) : String :=
  if n < 10 then "0" ++ toString n else toString n

/-- Zero-pad a year to four digits (`%Y`). -/
def pad4 (n : Nat) : String :=
  if n < 10 then "000" ++ toString n
  else if n < 100 then "00" ++ toString n
  else if n < 1000 then "0" ++ toString n
  else toString n

/-- Embeds `strftime("%Y-%m-%d %H:%M")` of broken-down fields. -/
def fmtYMDHM (y mo d h mi : Nat) : String :=
  pad4 y ++ "-" ++ pad2 mo ++ "-" ++ pad2 d ++ " " ++ pad2 h ++ ":" ++ pad2 mi

/-- Embeds `now.strftime("%Y-%m-%d %H:%M")`. -/
def DT.minuteKey (t : DT) : String :=
  fmtYMDHM t.year t.month t.day t.hour t.minute

/-- Embeds `now.strftime("%Y-%m-%d")`. -/
def DT.dateKey (t : DT) : String :=
  pad4 t.year ++ "-" ++ pad2 t.month ++ "-" ++ pad2 t.day

/-- Embeds `_in_quiet(now, quiet)` (src/main.py lines 42-53): false for an
empty spec or one without a dash; split at the first dash and parse both
endpoints with `_parse_hhmm`, false if either fails; then a closed
interval test, wrapping around midnight when start exceeds end.  The
current time of day keeps its seconds, the endpoints have second 0. -/
def in_quiet (now : DT) (quiet : String) : Bool :=
  if quiet = "" then false
  else
    match splitFirst '-' quiet.data with
    | none => false
    | some (a, b) =>
      match parse_hhmm ⟨a⟩, parse_hhmm ⟨b⟩ with
      | some p1, some p2 =>
        let t1 := p1.1 * 3600 + p1.2 * 60
        let t2 := p2.1 * 3600 + p2.2 * 60
        if t1 ≤ t2 then decide (t1 ≤ now.tod ∧ now.tod ≤ t2)
        else decide (t1 ≤ now.tod ∨ now.tod ≤ t2)
      | _, _ => false

/-! ## strptime("%Y-%m-%d %H:%M") (used by `_check_reminders`) -/

/-- Gregorian leap-year test (as validated by `datetime`). -/
def isLeap (y : Nat) : Bool :=
  (y % 4 = 0 && y % 100 ≠ 0) || y % 400 = 0

/-- Number of days of a month, as validated by the `datetime`
constructor that `strptime` calls. -/
def daysInMonth (y m : Nat) : Nat :=
  if m = 2 then (if isLeap y then 29 else 28)
  else if m = 4 ∨ m = 6 ∨ m = 9 ∨ m = 11 then 30
  else 31

/-- Take one or two leading digits greedily, returning their value and
the rest.  Each numeric field of the format is followed by a non-digit
separator or the end of input, so greedy matching agrees with the
CPython `_strptime` regexes. -/
def takeNum2 : List Char → Option (Nat × List Char)
  | [] => none
  | [c] => (digitVal c).map (fun d => (d, []))
  | c1 :: c2 :: rest =>
    match digitVal c1, digitVal c2 with
    | some d1, some d2 => some (10 * d1 + d2, rest)
    | some d1, none => some (d1, c2 :: rest)
    | none, _ => none

/-- Take exactly four leading digits (`%Y`). -/
def takeYear : List Char → Option (Nat × List Char)
  | c1 :: c2 :: c3 :: c4 :: rest =>
    match digitVal c1, digitVal c2, digitVal c3, digitVal c4 with
    | some d1, some d2, some d3, some d4 =>
      some (1000 * d1 + 100 * d2 + 10 * d3 + d4, rest)
    | _, _, _, _ => none
  | _ => none

/-- One or more whitespace characters (whitespace inside a `strptime`
format matches `\s+`). -/
def takeSpaces : List Char → Option (List Char)
  | c :: rest => if c.isWhitespace then some (rest.dropWhile Char.isWhitespace) else none
  | [] => none

/-- Expect one literal separator character. -/
def expectChar (c : Char) : List Char → Option (List Char)
  | x :: rest => if x = c then some rest else none
  | [] => none

/-- Embeds `datetime.strptime(s, "%Y-%m-%d %H:%M")`, returning the parsed
(year, month, day, hour, minute) or `none` where the Python call raises:
pattern mismatch, out-of-range month/hour/minute, day not valid for the
month, year zero, or unconverted trailing data. -/
def parseDateMin (s : String) : Option (Nat × Nat × Nat × Nat × Nat) := do
  let (y, r1) ← takeYear s.data
  let r2 ← expectChar '-' r1
  let (mo, r3) ← takeNum2 r2
  let r4 ← expectChar '-' r3
  let (d, r5) ← takeNum2 r4
  let r6 ← takeSpaces r5
  let (h, r7) ← takeNum2 r6
  let r8 ← expectChar ':' r7
  let (mi, r9) ← takeNum2 r8
  if r9 = [] ∧ 1 ≤ y ∧ 1 ≤ mo ∧ mo ≤ 12 ∧ 1 ≤ d ∧ d ≤ daysInMonth y mo ∧
      h ≤ 23 ∧ mi ≤ 59 then
    some (y, mo, d, h, mi)
  else none

/-- Embeds `dt.strftime("%Y-%m-%d %H:%M")` of a parsed one-shot reminder time;
this re-rendering zero-pads fields that were written with one digit. -/
def dmKey (d : Nat × Nat × Nat × Nat × Nat) : String :=
  fmtYMDHM d.1 d.2.1 d.2.2.1 d.2.2.2.1 d.2.2.2.2

/-! ## Data model (src/main.py lines 59-74) -/

/-- Embeds `collections.deque(maxlen=n).append`: append on the right, dropping
from the left whatever exceeds the capacity. -/
def dequeAppend (maxlen : Nat) (xs : List α) (x : α) : List α :=
  let ys := xs ++ [x]
  ys.drop (ys.length - maxlen)

/-- The history restore loop of `_load_states` (src/main.py lines
102-107): append every persisted entry into a fresh `deque(maxlen=32)`. -/
def loadHistory (raw : List α) : List α :=
  raw.foldl (dequeAppend 32) []

/-- Embeds `SessionState` (src/main.py lines 59-66).  History entries are
(role, content) pairs. -/
structure SessionState where
  last_ts : Int := 0
  history : List (String × String) := []
  subscribed : Bool := false
  last_fired_tag : String := ""
  last_user_reply_ts : Int := 0
  consecutive_no_reply_count : Nat := 0
  deriving DecidableEq

/-- Embeds `Reminder` (src/main.py lines 68-74).  The field `at` is a Lean
keyword, hence the underscore. -/
structure Reminder where
  id : String
  umo : String
  content : String
  at_ : String
  created_at : Int
  deriving DecidableEq

/-- The configuration options the scheduler tick reads.  The timezone
is implicit in the `DT` passed to the tick; integer options mirror the
`int(...)` coercions of the code. -/
structure Cfg where
  enable : Bool := true
  quiet_hours : String := ""
  after_last_msg_minutes : Int := 0
  max_no_reply_days : Int := 0
  daily_time1 : String := ""
  daily_time2 : String := ""
  deriving DecidableEq

/-! ## Inbound message handling (src/main.py lines 291-313) -/

/-- The state update of `_on_any_message`: stamp `last_ts` and
`last_user_reply_ts`, reset the no-reply counter, auto-subscribe when
the subscribe mode is "auto", and append a user history entry when the
message text is non-empty. -/
def on_any_message (auto_mode : Bool) (now_ts : Int) (content : String)
    (st : SessionState) : SessionState :=
  let st1 := { st with last_ts := now_ts, last_user_reply_ts := now_ts,
                       consecutive_no_reply_count := 0 }
  let st2 := if auto_mode then { st1 with subscribed := true } else st1
  if content ≠ "" then
    { st2 with history := dequeAppend 32 st2.history ("user", content) }
  else st2

/-! ## Auto-unsubscribe (src/main.py lines 613-628) -/

/-- Embeds `(now - last_reply).days`: `timedelta` normalizes so that `.days` is
the floor of the total seconds divided by 86400, i.e. `Int.fdiv`. -/
def daysSince (now_ts ts : Int) : Int :=
  (now_ts - ts).fdiv 86400

/-- Embeds `_should_auto_unsubscribe`: with a positive threshold and a known
last user reply, force `subscribed := false` and report true when the
whole-day difference reaches the threshold. -/
def should_auto_unsubscribe (max_days : Int) (now_ts : Int)
    (st : SessionState) : Bool × SessionState :=
  if max_days ≤ 0 then (false, st)
  else if st.last_user_reply_ts > 0 then
    if daysSince now_ts st.last_user_reply_ts ≥ max_days then
      (true, { st with subscribed := false })
    else (false, st)
  else (false, st)

/-! ## Scheduler tick, per-session part (src/main.py lines 555-611) -/

/-- The events a tick produces for one session, used to state that two
runs make identical decisions. -/
inductive Ev where
  | unsub : Ev
  | attempt (label : String) (ok : Bool) : Ev
  deriving DecidableEq

/-- A failed proactive attempt (the events that bump the no-reply
counter). -/
def Ev.isFailure : Ev → Bool
  | .attempt _ ok => !ok
  | .unsub => false

/-- Embeds the idle firing tag: the word idle, an at sign, then the current minute key. -/
def idleTag (now : DT) : String :=
  "idle@" ++ now.minuteKey

/-- Embeds a daily firing tag: the label, an at sign, the current date and the zero-padded slot time. -/
def dailyTag (label : String) (now : DT) (hm : Nat × Nat) : String :=
  label ++ "@" ++ now.dateKey ++ " " ++ pad2 hm.1 ++ ":" ++ pad2 hm.2

/-- The collision nudge of `_tick` (src/main.py lines 567-568): when
both daily times parse and coincide, push the second one forward a
minute, rolling the hour over. -/
def nudge (t1 t2 : Option (Nat × Nat)) : Option (Nat × Nat) :=
  match t1, t2 with
  | some a, some b =>
    if a = b then
      let m := (b.2 + 1) % 60
      let h := (b.1 + (if m = 0 then 1 else 0)) % 24
      some (h, m)
    else some b
  | _, _ => t2

/-- Effect on the session state of one `_proactive_reply` call together
with the tag bookkeeping done by `_tick`: a successful call stamps
`last_ts` with the send time, appends an assistant history entry and
(back in `_tick`) records `tag` in `last_fired_tag`; a failed call only
lets `_tick` bump the no-reply counter. -/
def triggerFire (tag : String) (outcome : Option (Int × String))
    (st : SessionState) : SessionState :=
  match outcome with
  | some o => { st with last_ts := o.1,
                        history := dequeAppend 32 st.history ("assistant", o.2),
                        last_fired_tag := tag }
  | none => { st with consecutive_no_reply_count := st.consecutive_no_reply_count + 1 }

/-- The idle trigger of `_tick` (src/main.py lines 583-593).  `n` counts
the proactive attempts already made this tick for this session and
indexes the outcome oracle. -/
def idlePart (idle_min : Int) (now : DT) (oracle : Nat → Option (Int × String))
    (n : Nat) (st : SessionState) : SessionState × Nat × List Ev :=
  if 0 < idle_min ∧ 0 < st.last_ts then
    if idle_min * 60 ≤ now.epoch - st.last_ts then
      if st.last_fired_tag ≠ idleTag now then
        (triggerFire (idleTag now) (oracle n) st, n + 1,
          [Ev.attempt "idle" (oracle n).isSome])
      else (st, n, [])
    else (st, n, [])
  else (st, n, [])

/-- One daily trigger of `_tick` (src/main.py lines 595-608). -/
def dailyPart (t : Option (Nat × Nat)) (label : String) (now : DT)
    (oracle : Nat → Option (Int × String)) (n : Nat) (st : SessionState) :
    SessionState × Nat × List Ev :=
  match t with
  | none => (st, n, [])
  | some hm =>
    if now.hour = hm.1 ∧ now.minute = hm.2 then
      if st.last_fired_tag ≠ dailyTag label now hm then
        (triggerFire (dailyTag label now hm) (oracle n) st, n + 1,
          [Ev.attempt label (oracle n).isSome])
      else (st, n, [])
    else (st, n, [])

/-- The per-session body of `_tick` (src/main.py lines 573-608):
skip unsubscribed sessions, skip sessions during quiet hours, evaluate
auto-unsubscribe, then the idle trigger and both daily triggers. -/
def sessTick (cfg : Cfg) (now : DT) (oracle : Nat → Option (Int × String))
    (st : SessionState) : SessionState × List Ev :=
  if st.subscribed = false then (st, [])
  else if in_quiet now cfg.quiet_hours then (st, [])
  else
    let u := should_auto_unsubscribe cfg.max_no_reply_days now.epoch st
    if u.1 then (u.2, [Ev.unsub])
    else
      let t1 := parse_hhmm cfg.daily_time1
      let t2 := nudge t1 (parse_hhmm cfg.daily_time2)
      let r1 := idlePart cfg.after_last_msg_minutes now oracle 0 u.2
      let r2 := dailyPart t1 "daily1" now oracle r1.2.1 r1.1
      let r3 := dailyPart t2 "daily2" now oracle r2.2.1 r2.1
      (r3.1, r1.2.2 ++ r2.2.2 ++ r3.2.2)

/-! ## Reminder firing (src/main.py lines 631-652) -/

/-- The message text sent for a reminder. -/
def reminderMsg (r : Reminder) : String :=
  "⏰ 提醒：" ++ r.content

/-- The body of the `_check_reminders` loop for one reminder: the
messages it sends (as (umo, text) pairs) and the ids it marks as fired.
Daily reminders (`"|daily" in at`) fire whenever the current hour and
minute match their parsed `HH:MM`, and are never marked fired; one-shot
reminders fire when the current minute key equals the re-rendered
stored one, and are then marked for removal; a reminder whose time
fails to parse does nothing. -/
def fireResult (now : DT) (r : Reminder) : List (String × String) × List String :=
  if pyIn "|daily" r.at_ then
    let hhmm : String :=
      match splitFirst '|' r.at_.data with
      | some p => ⟨p.1⟩
      | none => r.at_
    match parse_hhmm hhmm with
    | none => ([], [])
    | some t =>
      if now.hour = t.1 ∧ now.minute = t.2 then ([(r.umo, reminderMsg r)], [])
      else ([], [])
  else
    match parseDateMin r.at_ with
    | none => ([], [])
    | some d =>
      if now.minuteKey = dmKey d then ([(r.umo, reminderMsg r)], [r.id]) else ([], [])

/-- Result of `_check_reminders`: messages sent, surviving store, and
whether `_save_reminders` was called (exactly when some one-shot
reminder fired). -/
structure RemTick where
  sends : List (String × String)
  store : List Reminder
  saved : Bool
  deriving DecidableEq

/-- Embeds `_check_reminders(now)`: iterate over the store in order, sending
matching reminders; afterwards pop every fired id and persist if any
was popped.  The store is a dict keyed by `id`, modelled as a list. -/
def check_reminders (now : DT) (rs : List Reminder) : RemTick :=
  let fired := rs.flatMap (fun r => (fireResult now r).2)
  { sends := rs.flatMap (fun r => (fireResult now r).1),
    store := rs.filter (fun r => decide (r.id ∉ fired)),
    saved := !fired.isEmpty }

/-- A sequence of scheduler ticks acting on the reminder store alone:
final store and all messages sent along the way. -/
def runTicks (nows : List DT) (rs : List Reminder) : List Reminder × List (String × String) :=
  match nows with
  | [] => (rs, [])
  | n :: rest =>
    let c := check_reminders n rs
    let t := runTicks rest c.store
    (t.1, c.sends ++ t.2)

/-- One whole `_tick` (src/main.py lines 555-611): nothing happens when
the plugin is disabled; otherwise every session is processed by
`sessTick` (with its own outcome oracle) and the reminder store is
scanned once, independent of subscription and quiet hours. -/
def tick (cfg : Cfg) (now : DT) (oracle : String → Nat → Option (Int × String))
    (states : List (String × SessionState)) (rs : List Reminder) :
    List (String × SessionState) × RemTick :=
  if cfg.enable = false then (states, { sends := [], store := rs, saved := false })
  else
    (states.map (fun p => (p.1, (sessTick cfg now (oracle p.1) p.2).1)),
     check_reminders now rs)

/-! ## History normalizer (src/main.py lines 178-267) -/

/-- Python values reaching `_normalize_history`: everything `json.loads`
can produce (strings, lists, string-keyed dicts, None — numbers and
booleans fall under `vother`), plus opaque non-JSON objects; `vother`
carries the `str()` rendering of the value. -/
inductive Val where
  | vstr (s : String)
  | vlist (xs : List Val)
  | vdict (kvs : List (String × Val))
  | vnone
  | vother (rendering : String)

/-- Python truthiness of such a value. -/
def Val.truthy : Val → Bool
  | .vstr s => s ≠ ""
  | .vlist xs => !xs.isEmpty
  | .vdict kvs => !kvs.isEmpty
  | .vnone => false
  | .vother _ => true

/-- Embeds `d.get(k)`: the first binding of `k`, or None. -/
def dget (kvs : List (String × Val)) (k : String) : Val :=
  match kvs.find? (fun p => p.1 = k) with
  | some p => p.2
  | none => .vnone

/-- Python `a or b`. -/
def pyOr (a b : Val) : Val :=
  if a.truthy then a else b

mutual

/-- Embeds `repr()` of a value as produced inside `str()` of a container.
Approximation: string reprs use plain single quotes without escaping,
which is exact for strings free of quotes and backslashes; the claims
never depend on this rendering. -/
def pyReprVal : Val → String
  | .vstr s => "\x27" ++ s ++ "\x27"
  | .vlist xs => "[" ++ String.intercalate ", " (pyReprList xs) ++ "]"
  | .vdict kvs => "\x7b" ++ String.intercalate ", " (pyReprKVs kvs) ++ "\x7d"
  | .vnone => "None"
  | .vother rendering => rendering

/-- Embeds `repr()` of the elements of a list. -/
def pyReprList : List Val → List String
  | [] => []
  | v :: vs => pyReprVal v :: pyReprList vs

/-- Embeds `repr()` of the bindings of a dict. -/
def pyReprKVs : List (String × Val) → List String
  | [] => []
  | (k, v) :: kvs => ("\x27" ++ k ++ "\x27: " ++ pyReprVal v) :: pyReprKVs kvs

end

/-- Embeds `str()` of a value (top-level strings unquoted, containers via
`repr` of their elements). -/
def pyStr : Val → String
  | .vstr s => s
  | v => pyReprVal v

/-- One pass of the key probe `for key in ("text", "content", "value")`
used by `extract_content` on dicts: the stripped value of the first of
these keys holding a string with non-empty strip. -/
def keyText (kvs : List (String × Val)) (k : String) : Option String :=
  match dget kvs k with
  | .vstr s => if pyStrip s = "" then none else some (pyStrip s)
  | _ => none

/-- The full probe over the three aliased content keys. -/
def dictTextVal (kvs : List (String × Val)) : Option String :=
  (keyText kvs "text").orElse (fun _ => (keyText kvs "content").orElse (fun _ => keyText kvs "value"))

/-- Contribution of one fragment of a list-valued content: plain strings
verbatim (unstripped), dicts through the key probe (stripped), anything
else dropped. -/
def segPart : Val → List String
  | .vstr s => [s]
  | .vdict kvs =>
    match dictTextVal kvs with
    | some s => [s]
    | none => []
  | _ => []

/-- Embeds `extract_content` (src/main.py lines 217-239): strings are stripped;
lists concatenate their fragment contributions with newlines, dropping
empty parts; dicts go through the key probe and otherwise fall through
to `str(value).strip()`; None yields the empty string; any other value
yields its stripped `str()`. -/
def extract_content : Val → String
  | .vstr s => pyStrip s
  | .vlist segs =>
    String.intercalate "\n" ((segs.flatMap segPart).filter (fun p => decide (p ≠ "")))
  | .vdict kvs =>
    match dictTextVal kvs with
    | some s => s
    | none => pyStrip (pyStr (.vdict kvs))
  | .vnone => ""
  | .vother rendering => pyStrip rendering

/-- Embeds `normalize_role` (src/main.py lines 200-215): strings are lowered
and pushed through the alias table, unrecognized strings pass through
lowered, non-strings give None. -/
def normalize_role (v : Val) : Option String :=
  match v with
  | .vstr s =>
    let lo := pyLower s
    if lo = "assistant" ∨ lo = "bot" ∨ lo = "ai" ∨ lo = "model" then some "assistant"
    else if lo = "system" then some "system"
    else if lo = "user" ∨ lo = "human" then some "user"
    else some lo
  | _ => none

/-- The role/content extraction stage of `_normalize_history_item`
(src/main.py lines 241-258), before the final coercions: dicts read the
role from the alias keys with Python `or` and the content from
`content` falling back to `text`, `message`, `value`; plain strings are
user messages; anything else yields no role and empty content (host
objects exposing attributes are outside the modelled domain). -/
def item_role_content (item : Val) : Option String × String :=
  match item with
  | .vdict kvs =>
    let rv := pyOr (dget kvs "role")
      (pyOr (dget kvs "speaker") (pyOr (dget kvs "type") (dget kvs "sender")))
    let c0 := extract_content (dget kvs "content")
    let content :=
      if c0 = "" then
        let ct := extract_content (dget kvs "text")
        let cm := extract_content (dget kvs "message")
        let cv := extract_content (dget kvs "value")
        if ct ≠ "" then ct else if cm ≠ "" then cm else cv
      else c0
    (normalize_role rv, content)
  | .vstr s => (some "user", pyStrip s)
  | _ => (none, "")

/-- Embeds `_normalize_history_item` (src/main.py lines 199-267): a falsy role
becomes "user", the content is stripped and empty content drops the
item, a non-canonical role is coerced to "user". -/
def normalize_history_item (item : Val) : Option (String × String) :=
  let rc := item_role_content item
  let role1 :=
    match rc.1 with
    | some r => if r = "" then "user" else r
    | none => "user"
  let content := pyStrip rc.2
  if content = "" then none
  else
    some ((if role1 = "user" ∨ role1 = "assistant" ∨ role1 = "system" then role1
           else "user"), content)

/-- Dispatch of `_normalize_history` on the (possibly decoded) data:
lists and tuples are normalized item-wise, a single dict is normalized
alone, everything else yields the empty context list. -/
def normalize_from_data : Option Val → List (String × String)
  | some (.vlist xs) => xs.filterMap normalize_history_item
  | some (.vdict kvs) => (normalize_history_item (.vdict kvs)).toList
  | _ => []

/-- Embeds `_normalize_history` (src/main.py lines 178-196): a raw string is
first decoded as JSON (`decode` abstracts `json.loads`; `none` is a
raised decode error, making the data None). -/
def normalize_history (decode : String → Option Val) (raw : Val) :
    List (String × String) :=
  match raw with
  | .vstr s => normalize_from_data (decode s)
  | v => normalize_from_data (some v)

/-- A normalized message re-entering the normalizer as a plain dict. -/
def msgToVal (m : String × String) : Val :=
  .vdict [("role", .vstr m.1), ("content", .vstr m.2)]

/-! # Theorems -/

/-! ## Generic helper lemmas -/

theorem dequeAppend_length_le (xs : List α) (x : α) :
    (dequeAppend 32 xs x).length ≤ 32 := by
  simp only [dequeAppend, List.length_drop, List.length_append, List.length_cons,
    List.length_nil]
  omega

theorem foldl_dequeAppend_length_le (ms : List α) (init : List α)
    (h : init.length ≤ 32) : (ms.foldl (dequeAppend 32) init).length ≤ 32 := by
  induction ms generalizing init with
  | nil => simpa using h
  | cons m ms ih => exact ih _ (dequeAppend_length_le init m)

theorem dequeAppend_evict (xs : List α) (x : α) (h : xs.length = 32) :
    dequeAppend 32 xs x = xs.drop 1 ++ [x] := by
  cases xs with
  | nil => simp at h
  | cons y t =>
    simp only [dequeAppend, List.length_append, List.length_cons, List.length_nil]
    have : t.length + 1 + 1 - 32 = 1 := by simp at h; omega
    rw [this]
    simp

/-! ## C4: auto-unsubscribe -/

/-- C4: Auto-unsubscribe: with a positive threshold `m` and a known
last user reply, the session is unsubscribed exactly when the whole-day
difference reaches `m`; a reply exactly `N` days old unsubscribes under
threshold `N` but not under `N + 1`; threshold 0 never unsubscribes. -/
theorem auto_unsubscribe_day_threshold (now_ts : Int) (st : SessionState) :
    (∀ m : Int, 0 < m → 0 < st.last_user_reply_ts →
      should_auto_unsubscribe m now_ts st =
        if daysSince now_ts st.last_user_reply_ts ≥ m then
          (true, { st with subscribed := false })
        else (false, st)) ∧
    (∀ N : Int, 0 < N → 0 < st.last_user_reply_ts →
      st.last_user_reply_ts = now_ts - N * 86400 →
      (should_auto_unsubscribe N now_ts st).1 = true ∧
      (should_auto_unsubscribe N now_ts st).2.subscribed = false ∧
      should_auto_unsubscribe (N + 1) now_ts st = (false, st)) ∧
    should_auto_unsubscribe 0 now_ts st = (false, st) := by
  have hbase : ∀ m : Int, 0 < m → 0 < st.last_user_reply_ts →
      should_auto_unsubscribe m now_ts st =
        if daysSince now_ts st.last_user_reply_ts ≥ m then
          (true, { st with subscribed := false })
        else (false, st) := by
    intro m hm hts
    unfold should_auto_unsubscribe
    rw [if_neg (by omega)]
    rw [if_pos hts]
  refine ⟨hbase, ?_, ?_⟩
  · intro N hN hts hexact
    have hd : daysSince now_ts st.last_user_reply_ts = N := by
      unfold daysSince
      rw [hexact, show now_ts - (now_ts - N * 86400) = N * 86400 by ring]
      exact Int.mul_fdiv_cancel N (by norm_num)
    refine ⟨?_, ?_, ?_⟩
    · rw [hbase N hN hts, if_pos (by rw [hd])]
    · rw [hbase N hN hts, if_pos (by rw [hd])]
    · rw [hbase (N + 1) (by omega) hts, if_neg (by rw [hd]; omega)]
  · unfold should_auto_unsubscribe
    rw [if_pos (by omega)]

theorem auto_unsubscribe_day_threshold_witness :
    (should_auto_unsubscribe 2 200000
        { last_user_reply_ts := 27200, subscribed := true }).1 = true ∧
    (should_auto_unsubscribe 2 200000
        { last_user_reply_ts := 27200, subscribed := true }).2.subscribed = false ∧
    should_auto_unsubscribe 3 200000
        { last_user_reply_ts := 27200, subscribed := true } =
      (false, { last_user_reply_ts := 27200, subscribed := true }) :=
  (auto_unsubscribe_day_threshold 200000
    { last_user_reply_ts := 27200, subscribed := true }).2.1 2
    (by decide) (by decide) (by decide)

/-! ## C5: bounded ring-buffer history -/

/-- C5: Session history is a ring buffer of capacity 32: any
sequence of appends (inbound messages, assistant records) starting from
a state within capacity stays within capacity, an append to a full
buffer evicts the oldest entry, and a reload of a persisted document of
any length stays within capacity. -/
theorem history_ring_buffer :
    (∀ (init ms : List (String × String)), init.length ≤ 32 →
      (ms.foldl (dequeAppend 32) init).length ≤ 32) ∧
    (∀ (xs : List (String × String)) (x : String × String), xs.length = 32 →
      dequeAppend 32 xs x = xs.drop 1 ++ [x]) ∧
    (∀ raw : List (String × String), (loadHistory raw).length ≤ 32) := by
  refine ⟨fun init ms h => foldl_dequeAppend_length_le ms init h,
    fun xs x h => dequeAppend_evict xs x h,
    fun raw => foldl_dequeAppend_length_le raw [] (by simp)⟩

theorem history_ring_buffer_witness :
    dequeAppend 32 (List.replicate 32 (("user", "m") : String × String))
        ("user", "new") =
      (List.replicate 32 (("user", "m") : String × String)).drop 1 ++
        [("user", "new")] :=
  history_ring_buffer.2.1 _ _ (by simp)

/-! ## C6: quiet-hours window -/

/-- C6: `in_quiet`: with both endpoints parsed, a closed-interval
test when start ≤ end and a wraparound test (≥ start or ≤ end,
inclusive) when start > end; false when the spec has no dash or an
endpoint fails to parse; the wraparound example `"22:00-06:00"`
contains 23:30 and 05:00 and excludes 12:00, and the empty spec is
never quiet. -/
theorem in_quiet_window (now : DT) (q : String) :
    (splitFirst '-' q.data = none → in_quiet now q = false) ∧
    (∀ A B, splitFirst '-' q.data = some (A, B) →
      parse_hhmm ⟨A⟩ = none ∨ parse_hhmm ⟨B⟩ = none → in_quiet now q = false) ∧
    (∀ A B h1 m1 h2 m2, splitFirst '-' q.data = some (A, B) →
      parse_hhmm ⟨A⟩ = some (h1, m1) → parse_hhmm ⟨B⟩ = some (h2, m2) →
      (h1 * 3600 + m1 * 60 ≤ h2 * 3600 + m2 * 60 →
        (in_quiet now q = true ↔
          h1 * 3600 + m1 * 60 ≤ now.tod ∧ now.tod ≤ h2 * 3600 + m2 * 60)) ∧
      (h2 * 3600 + m2 * 60 < h1 * 3600 + m1 * 60 →
        (in_quiet now q = true ↔
          (h1 * 3600 + m1 * 60 ≤ now.tod ∨ now.tod ≤ h2 * 3600 + m2 * 60)))) ∧
    (in_quiet ⟨0, 2025, 1, 1, 23, 30, 0⟩ "22:00-06:00" = true ∧
     in_quiet ⟨0, 2025, 1, 1, 5, 0, 0⟩ "22:00-06:00" = true ∧
     in_quiet ⟨0, 2025, 1, 1, 12, 0, 0⟩ "22:00-06:00" = false ∧
     in_quiet now "" = false) := by
  have hemp : ∀ A B, splitFirst '-' q.data = some (A, B) → q ≠ "" := by
    intro A B hs hq
    subst hq
    simp [splitFirst] at hs
  refine ⟨?_, ?_, ?_, by decide, by decide, by decide, by simp [in_quiet]⟩
  · intro hs
    unfold in_quiet
    split
    · rfl
    · rw [hs]
  · intro A B hs hnone
    unfold in_quiet
    rw [if_neg (hemp A B hs), hs]
    dsimp only
    rcases hnone with h | h
    · rw [h]
    · rw [h]
      rcases parse_hhmm ⟨A⟩ with _ | p <;> rfl
  · intro A B h1 m1 h2 m2 hs hp1 hp2
    unfold in_quiet
    rw [if_neg (hemp A B hs), hs]
    dsimp only
    rw [hp1, hp2]
    dsimp only
    constructor
    · intro hle
      rw [if_pos hle]
      simp
    · intro hlt
      rw [if_neg (by omega)]
      simp

theorem in_quiet_window_witness : in_quiet ⟨0, 2025, 1, 1, 23, 30, 0⟩ "22:00-06:00" = true := by
  have h := (in_quiet_window ⟨0, 2025, 1, 1, 23, 30, 0⟩ "22:00-06:00").2.2.1
    "22:00".data "06:00".data 22 0 6 0 (by decide) (by decide) (by decide)
  exact (h.2 (by decide)).mpr (by decide)

/-! ## Reminder-store lemmas -/

theorem fireResult_snd_mem (now : DT) (r : Reminder) (x : String)
    (hx : x ∈ (fireResult now r).2) : x = r.id := by
  unfold fireResult at hx
  split at hx
  · split at hx
    · dsimp only at hx
      split at hx
      · simp at hx
      · split at hx <;> simp at hx
    · dsimp only at hx
      split at hx
      · simp at hx
      · split at hx <;> simp at hx
  · split at hx
    · simp at hx
    · split at hx
      · simpa using hx
      · simp at hx

theorem fireResult_once_eq (now : DT) (r : Reminder) (d : Nat × Nat × Nat × Nat × Nat)
    (hnd : pyIn "|daily" r.at_ = false) (hp : parseDateMin r.at_ = some d) :
    fireResult now r =
      if now.minuteKey = dmKey d then ([(r.umo, reminderMsg r)], [r.id])
      else ([], []) := by
  simp [fireResult, hnd, hp]

theorem check_reminders_store_subset (now : DT) (rs : List Reminder) :
    (check_reminders now rs).store ⊆ rs :=
  fun _ hr => (List.mem_filter.mp hr).1

theorem runTicks_store_subset (nows : List DT) (rs : List Reminder) :
    (runTicks nows rs).1 ⊆ rs := by
  induction nows generalizing rs with
  | nil => exact fun _ h => h
  | cons n rest ih =>
    intro x hx
    exact check_reminders_store_subset n rs (ih (check_reminders n rs).store hx)

theorem check_reminders_store_nodup (now : DT) (rs : List Reminder)
    (h : (rs.map Reminder.id).Nodup) :
    ((check_reminders now rs).store.map Reminder.id).Nodup :=
  ((List.filter_sublist rs).map Reminder.id).nodup h

theorem not_fired_retained (now : DT) (rs : List Reminder) (r : Reminder)
    (hmem : r ∈ rs) (hnodup : (rs.map Reminder.id).Nodup)
    (hf : (fireResult now r).2 = []) : r ∈ (check_reminders now rs).store := by
  refine List.mem_filter.mpr ⟨hmem, decide_eq_true ?_⟩
  intro hid
  rcases List.mem_flatMap.mp hid with ⟨r2, hr2, hx⟩
  have heq : r2.id = r.id := (fireResult_snd_mem now r2 r.id hx).symm
  have : r2 = r := List.inj_on_of_nodup_map hnodup hr2 hmem heq
  subst this
  rw [hf] at hx
  simp at hx

/-! ## C1: daily reminders are NOT de-duplicated within a minute -/

/-- C1, code evaluation at the failing input: A daily reminder
`"09:00|daily"` is delivered by the tick at 09:00:10 and again by the
next tick at 09:00:40 of the same day — two deliveries inside the same
matching calendar minute, because the daily branch of
`_check_reminders` has no `last_fired_tag`-style guard and leaves the
reminder in the store.  The claimed at-most-once-per-minute behaviour
is what the spec flags as the fix; the code does not implement it. -/
theorem daily_reminder_double_fire :
    (check_reminders ⟨100, 2025, 10, 12, 9, 0, 10⟩
        [⟨"R1", "S", "water", "09:00|daily", 0⟩]).sends =
      [("S", reminderMsg ⟨"R1", "S", "water", "09:00|daily", 0⟩)] ∧
    (check_reminders ⟨100, 2025, 10, 12, 9, 0, 10⟩
        [⟨"R1", "S", "water", "09:00|daily", 0⟩]).store =
      [⟨"R1", "S", "water", "09:00|daily", 0⟩] ∧
    (check_reminders ⟨130, 2025, 10, 12, 9, 0, 40⟩
        (check_reminders ⟨100, 2025, 10, 12, 9, 0, 10⟩
          [⟨"R1", "S", "water", "09:00|daily", 0⟩]).store).sends =
      [("S", reminderMsg ⟨"R1", "S", "water", "09:00|daily", 0⟩)] := by
  decide

/-! ## C3: one-shot reminders fire once and are reaped -/

/-- C3: A one-shot reminder (no `"|daily"` marker, parseable
`"YYYY-MM-DD HH:MM"`) fires exactly when the current minute key equals
the stored one; after firing it is absent from the resulting store, the
removal is persisted (`saved = true`), and no reminder bearing its id
ever appears in the store of any later tick, so it cannot fire again;
when the minute does not match it neither fires nor is removed. -/
theorem one_shot_fire_and_reap (now : DT) (rs : List Reminder) (r : Reminder)
    (d : Nat × Nat × Nat × Nat × Nat)
    (hmem : r ∈ rs) (hnd : pyIn "|daily" r.at_ = false)
    (hp : parseDateMin r.at_ = some d)
    (hnodup : (rs.map Reminder.id).Nodup) :
    (now.minuteKey = dmKey d →
      (r.umo, reminderMsg r) ∈ (check_reminders now rs).sends ∧
      (∀ r2 ∈ (check_reminders now rs).store, r2.id ≠ r.id) ∧
      (check_reminders now rs).saved = true ∧
      (∀ nows r2, r2 ∈ (runTicks nows (check_reminders now rs).store).1 →
        r2.id ≠ r.id)) ∧
    (now.minuteKey ≠ dmKey d →
      (fireResult now r).1 = [] ∧ r ∈ (check_reminders now rs).store) := by
  have hfe := fireResult_once_eq now r d hnd hp
  constructor
  · intro hkey
    rw [if_pos hkey] at hfe
    have hid : r.id ∈ rs.flatMap (fun r2 => (fireResult now r2).2) :=
      List.mem_flatMap.mpr ⟨r, hmem, by rw [hfe]; simp⟩
    have hstore : ∀ r2 ∈ (check_reminders now rs).store, r2.id ≠ r.id := by
      intro r2 hr2 heq
      have := of_decide_eq_true (List.mem_filter.mp hr2).2
      exact this (heq ▸ hid)
    refine ⟨List.mem_flatMap.mpr ⟨r, hmem, by rw [hfe]; simp⟩, hstore, ?_, ?_⟩
    · rcases hl : rs.flatMap (fun r2 => (fireResult now r2).2) with _ | ⟨y, ys⟩
      · rw [hl] at hid
        simp at hid
      · simp [check_reminders, hl]
    · intro nows r2 hr2
      exact hstore r2 (runTicks_store_subset nows _ hr2)
  · intro hkey
    rw [if_neg hkey] at hfe
    exact ⟨by rw [hfe], not_fired_retained now rs r hmem hnodup (by rw [hfe])⟩

theorem one_shot_fire_and_reap_witness :
    ("S", reminderMsg ⟨"R2", "S", "tea", "2025-10-12 09:00", 0⟩) ∈
      (check_reminders ⟨100, 2025, 10, 12, 9, 0, 10⟩
        [⟨"R2", "S", "tea", "2025-10-12 09:00", 0⟩]).sends ∧
    (check_reminders ⟨100, 2025, 10, 12, 9, 0, 10⟩
        [⟨"R2", "S", "tea", "2025-10-12 09:00", 0⟩]).saved = true := by
  have h := (one_shot_fire_and_reap ⟨100, 2025, 10, 12, 9, 0, 10⟩
    [⟨"R2", "S", "tea", "2025-10-12 09:00", 0⟩]
    ⟨"R2", "S", "tea", "2025-10-12 09:00", 0⟩ (2025, 10, 12, 9, 0)
    (by decide) (by decide) (by decide) (by decide)).1 (by decide)
  exact ⟨h.1, h.2.2.1⟩

/-! ## C9: a never-matching one-shot reminder is never fired, never reaped -/

theorem fireResult_once_nofire (now : DT) (r : Reminder)
    (hnd : pyIn "|daily" r.at_ = false)
    (hnf : ∀ d, parseDateMin r.at_ = some d → now.minuteKey ≠ dmKey d) :
    fireResult now r = ([], []) := by
  cases hp : parseDateMin r.at_ with
  | none => simp [fireResult, hnd, hp]
  | some d => rw [fireResult_once_eq now r d hnd hp, if_neg (hnf d hp)]

/-- C9: A one-shot reminder whose stored minute never coincides with
the current minute at any tick — including one whose `at` string does
not parse at all — is never delivered and survives every tick in the
store (until an explicit delete command, which is outside the
scheduler). -/
theorem stale_one_shot_never_fires (rs : List Reminder) (r : Reminder)
    (nows : List DT)
    (hmem : r ∈ rs) (hnd : pyIn "|daily" r.at_ = false)
    (hnodup : (rs.map Reminder.id).Nodup)
    (hnf : ∀ n ∈ nows, ∀ d, parseDateMin r.at_ = some d →
      n.minuteKey ≠ dmKey d) :
    r ∈ (runTicks nows rs).1 ∧ ∀ n ∈ nows, (fireResult n r).1 = [] := by
  constructor
  · induction nows generalizing rs with
    | nil => exact hmem
    | cons n rest ih =>
      have hfe := fireResult_once_nofire n r hnd
        (fun d hd => hnf n (by simp) d hd)
      have hret : r ∈ (check_reminders n rs).store :=
        not_fired_retained n rs r hmem hnodup (by rw [hfe])
      exact ih _ hret (check_reminders_store_nodup n rs hnodup)
        (fun n2 hn2 d hd => hnf n2 (by simp [hn2]) d hd)
  · intro n hn
    rw [fireResult_once_nofire n r hnd (fun d hd => hnf n hn d hd)]

theorem stale_one_shot_never_fires_witness :
    (⟨"R3", "S", "tea", "2020-01-01 09:00", 0⟩ : Reminder) ∈
      (runTicks [⟨100, 2025, 10, 12, 9, 0, 10⟩, ⟨130, 2025, 10, 12, 9, 0, 40⟩]
        [⟨"R3", "S", "tea", "2020-01-01 09:00", 0⟩]).1 :=
  (stale_one_shot_never_fires [⟨"R3", "S", "tea", "2020-01-01 09:00", 0⟩]
    ⟨"R3", "S", "tea", "2020-01-01 09:00", 0⟩
    [⟨100, 2025, 10, 12, 9, 0, 10⟩, ⟨130, 2025, 10, 12, 9, 0, 40⟩]
    (by decide) (by decide) (by decide) (by decide)).1

/-! ## C8: reminder delivery is independent of quiet hours -/

theorem sessTick_quiet (cfg : Cfg) (now : DT)
    (oracle : Nat → Option (Int × String)) (st : SessionState)
    (hq : in_quiet now cfg.quiet_hours = true) :
    sessTick cfg now oracle st = (st, []) := by
  unfold sessTick
  split
  · rfl
  · simp [hq]

/-- C8: On a tick of an enabled plugin, the reminder scan is
executed and produces exactly `check_reminders now rs` even when the
current time is inside the quiet-hours window; quiet hours only make
every per-session trigger body a no-op (session states pass through
unchanged), and every message a reminder fires is among the tick
deliveries. -/
theorem reminders_not_gated_by_quiet (cfg : Cfg) (now : DT)
    (oracle : String → Nat → Option (Int × String))
    (states : List (String × SessionState)) (rs : List Reminder)
    (hen : cfg.enable = true)
    (hq : in_quiet now cfg.quiet_hours = true) :
    (tick cfg now oracle states rs).2 = check_reminders now rs ∧
    (tick cfg now oracle states rs).1 = states ∧
    ∀ r ∈ rs, ∀ s ∈ (fireResult now r).1,
      s ∈ (tick cfg now oracle states rs).2.sends := by
  have hmap : ∀ l : List (String × SessionState),
      l.map (fun p => (p.1, (sessTick cfg now (oracle p.1) p.2).1)) = l := by
    intro l
    induction l with
    | nil => rfl
    | cons p t ih => simp [ih, sessTick_quiet cfg now (oracle p.1) p.2 hq]
  have hne : ¬ cfg.enable = false := by simp [hen]
  refine ⟨?_, ?_, ?_⟩
  · unfold tick
    rw [if_neg hne]
  · unfold tick
    rw [if_neg hne]
    exact hmap states
  · intro r hr s hs
    unfold tick
    rw [if_neg hne]
    exact List.mem_flatMap.mpr ⟨r, hr, hs⟩

/-! ## C2: idle trigger minute-level de-duplication -/

theorem unsub_false_eq (m ts : Int) (st : SessionState)
    (h : (should_auto_unsubscribe m ts st).1 = false) :
    should_auto_unsubscribe m ts st = (false, st) := by
  unfold should_auto_unsubscribe at h ⊢
  split_ifs at h ⊢ <;> simp_all

/-- C2: The idle trigger of the tick, for a subscribed session out
of quiet hours that does not auto-unsubscribe, whose idle condition
holds (threshold positive, `last_ts` known, elapsed at least the
threshold) and with no daily times configured: when `last_fired_tag`
already equals the current idle tag the tick attempts nothing and
changes nothing; when the tag differs one proactive attempt is made —
on success `last_fired_tag` becomes the idle tag and the no-reply
counter is untouched, on failure the state changes only by incrementing
the no-reply counter (so the tag is unchanged and the idle condition is
retried next tick). -/
theorem idle_minute_dedup (cfg : Cfg) (now : DT)
    (oracle : Nat → Option (Int × String)) (st : SessionState)
    (hsub : st.subscribed = true)
    (hqt : in_quiet now cfg.quiet_hours = false)
    (huns : (should_auto_unsubscribe cfg.max_no_reply_days now.epoch st).1 = false)
    (ht1 : cfg.daily_time1 = "") (ht2 : cfg.daily_time2 = "")
    (hidle : 0 < cfg.after_last_msg_minutes ∧ 0 < st.last_ts ∧
      cfg.after_last_msg_minutes * 60 ≤ now.epoch - st.last_ts) :
    (st.last_fired_tag = idleTag now → sessTick cfg now oracle st = (st, [])) ∧
    (st.last_fired_tag ≠ idleTag now →
      (sessTick cfg now oracle st).2 = [Ev.attempt "idle" (oracle 0).isSome] ∧
      (∀ ts txt, oracle 0 = some (ts, txt) →
        (sessTick cfg now oracle st).1.last_fired_tag = idleTag now ∧
        (sessTick cfg now oracle st).1.consecutive_no_reply_count =
          st.consecutive_no_reply_count) ∧
      (oracle 0 = none →
        (sessTick cfg now oracle st).1 =
          { st with consecutive_no_reply_count :=
              st.consecutive_no_reply_count + 1 })) := by
  have hu : should_auto_unsubscribe cfg.max_no_reply_days now.epoch st =
      (false, st) := unsub_false_eq _ _ _ huns
  have hpe : parse_hhmm "" = none := rfl
  have hred : sessTick cfg now oracle st =
      ((idlePart cfg.after_last_msg_minutes now oracle 0 st).1,
       (idlePart cfg.after_last_msg_minutes now oracle 0 st).2.2) := by
    simp only [sessTick, hsub, hqt, hu, ht1, ht2, hpe, nudge, dailyPart,
      List.append_nil]
    simp
  have hi : idlePart cfg.after_last_msg_minutes now oracle 0 st =
      if st.last_fired_tag ≠ idleTag now then
        (triggerFire (idleTag now) (oracle 0) st, 1,
          [Ev.attempt "idle" (oracle 0).isSome])
      else (st, 0, []) := by
    unfold idlePart
    rw [if_pos ⟨hidle.1, hidle.2.1⟩, if_pos hidle.2.2]
  constructor
  · intro htag
    rw [hred, hi, if_neg (by simp [htag])]
  · intro htag
    rw [hred, hi, if_pos htag]
    refine ⟨rfl, ?_, ?_⟩
    · intro ts txt ho
      simp [triggerFire, ho]
    · intro ho
      simp [triggerFire, ho]

theorem idle_minute_dedup_witness :
    (sessTick { after_last_msg_minutes := 5 } ⟨500, 2025, 10, 12, 12, 30, 0⟩
        (fun _ => none) { last_ts := 100, subscribed := true }).1 =
      { last_ts := 100, subscribed := true, consecutive_no_reply_count := 1 } := by
  have h := (idle_minute_dedup { after_last_msg_minutes := 5 }
    ⟨500, 2025, 10, 12, 12, 30, 0⟩ (fun _ => none)
    { last_ts := 100, subscribed := true }
    (by decide) (by decide) (by decide) (by decide) (by decide)
    ⟨by decide, by decide, by decide⟩).2 (by decide)
  exact h.2.2 rfl

/-! ## C10: the no-reply counter influences no scheduling decision -/

theorem unsub_cnt_shift (m ts : Int) (st : SessionState) (c : Nat) :
    should_auto_unsubscribe m ts { st with consecutive_no_reply_count := c } =
      ((should_auto_unsubscribe m ts st).1,
       { (should_auto_unsubscribe m ts st).2 with
          consecutive_no_reply_count := c }) := by
  unfold should_auto_unsubscribe
  dsimp only
  split_ifs <;> rfl

theorem unsub_cnt_preserve (m ts : Int) (st : SessionState) :
    (should_auto_unsubscribe m ts st).2.consecutive_no_reply_count =
      st.consecutive_no_reply_count := by
  unfold should_auto_unsubscribe
  split_ifs <;> rfl

theorem idlePart_cnt_shift (i : Int) (now : DT)
    (oracle : Nat → Option (Int × String)) (n : Nat) (st : SessionState)
    (c : Nat) :
    idlePart i now oracle n { st with consecutive_no_reply_count := c } =
      ({ (idlePart i now oracle n st).1 with consecutive_no_reply_count :=
          c + ((idlePart i now oracle n st).1.consecutive_no_reply_count
              - st.consecutive_no_reply_count) },
       (idlePart i now oracle n st).2.1, (idlePart i now oracle n st).2.2) := by
  unfold idlePart triggerFire
  dsimp only
  split_ifs <;> try simp
  cases oracle n <;> simp

theorem dailyPart_cnt_shift (t : Option (Nat × Nat)) (label : String) (now : DT)
    (oracle : Nat → Option (Int × String)) (n : Nat) (st : SessionState)
    (c : Nat) :
    dailyPart t label now oracle n { st with consecutive_no_reply_count := c } =
      ({ (dailyPart t label now oracle n st).1 with consecutive_no_reply_count :=
          c + ((dailyPart t label now oracle n st).1.consecutive_no_reply_count
              - st.consecutive_no_reply_count) },
       (dailyPart t label now oracle n st).2.1,
       (dailyPart t label now oracle n st).2.2) := by
  cases t with
  | none => simp [dailyPart]
  | some hm =>
    unfold dailyPart triggerFire
    dsimp only
    split_ifs <;> try simp
    cases oracle n <;> simp

theorem idlePart_cnt_failures (i : Int) (now : DT)
    (oracle : Nat → Option (Int × String)) (n : Nat) (st : SessionState) :
    (idlePart i now oracle n st).1.consecutive_no_reply_count =
      st.consecutive_no_reply_count +
        ((idlePart i now oracle n st).2.2.filter Ev.isFailure).length := by
  unfold idlePart triggerFire
  split_ifs <;> try simp
  cases oracle n <;> simp [Ev.isFailure]

theorem dailyPart_cnt_failures (t : Option (Nat × Nat)) (label : String)
    (now : DT) (oracle : Nat → Option (Int × String)) (n : Nat)
    (st : SessionState) :
    (dailyPart t label now oracle n st).1.consecutive_no_reply_count =
      st.consecutive_no_reply_count +
        ((dailyPart t label now oracle n st).2.2.filter Ev.isFailure).length := by
  cases t with
  | none => simp [dailyPart]
  | some hm =>
    unfold dailyPart triggerFire
    dsimp only
    split_ifs <;> try simp
    cases oracle n <;> simp [Ev.isFailure]

theorem sessTick_cnt_failures (cfg : Cfg) (now : DT)
    (oracle : Nat → Option (Int × String)) (st : SessionState) :
    (sessTick cfg now oracle st).1.consecutive_no_reply_count =
      st.consecutive_no_reply_count +
        ((sessTick cfg now oracle st).2.filter Ev.isFailure).length := by
  unfold sessTick
  dsimp only
  split_ifs with h1 h2 h3
  · simp
  · simp
  · simp [Ev.isFailure, unsub_cnt_preserve]
  · rw [List.filter_append, List.filter_append, List.length_append,
      List.length_append, dailyPart_cnt_failures, dailyPart_cnt_failures,
      idlePart_cnt_failures, unsub_cnt_preserve]
    omega

/-- C10: `consecutive_no_reply_count` influences no scheduling
decision: running the per-session tick on a state whose counter is
replaced by an arbitrary value `c` produces the same event sequence
(firing and auto-unsubscribe decisions) and the same resulting state up
to the counter, whose increment is the same in both runs; the increment
equals the number of failed proactive attempts of the tick; an inbound
message resets the counter to 0; and the auto-unsubscribe decision
depends on the state only through `last_user_reply_ts`. -/
theorem counter_noninterference (cfg : Cfg) (now : DT)
    (oracle : Nat → Option (Int × String)) (st : SessionState) (c : Nat) :
    ((sessTick cfg now oracle { st with consecutive_no_reply_count := c }).2 =
      (sessTick cfg now oracle st).2 ∧
     (sessTick cfg now oracle { st with consecutive_no_reply_count := c }).1 =
      { (sessTick cfg now oracle st).1 with consecutive_no_reply_count :=
          c + ((sessTick cfg now oracle st).1.consecutive_no_reply_count
              - st.consecutive_no_reply_count) }) ∧
    (sessTick cfg now oracle st).1.consecutive_no_reply_count =
      st.consecutive_no_reply_count +
        ((sessTick cfg now oracle st).2.filter Ev.isFailure).length ∧
    (∀ (auto_mode : Bool) (now_ts : Int) (content : String),
      (on_any_message auto_mode now_ts content st).consecutive_no_reply_count = 0) ∧
    (∀ st2 : SessionState,
      st2.last_user_reply_ts = st.last_user_reply_ts →
      (should_auto_unsubscribe cfg.max_no_reply_days now.epoch st2).1 =
        (should_auto_unsubscribe cfg.max_no_reply_days now.epoch st).1) := by
  refine ⟨?_, sessTick_cnt_failures cfg now oracle st, ?_, ?_⟩
  · have hu := unsub_cnt_shift cfg.max_no_reply_days now.epoch st c
    have hup := unsub_cnt_preserve cfg.max_no_reply_days now.epoch st
    have hi := idlePart_cnt_shift cfg.after_last_msg_minutes now oracle 0
      (should_auto_unsubscribe cfg.max_no_reply_days now.epoch st).2 c
    have hif := idlePart_cnt_failures cfg.after_last_msg_minutes now oracle 0
      (should_auto_unsubscribe cfg.max_no_reply_days now.epoch st).2
    unfold sessTick
    dsimp only
    rw [hu]
    dsimp only
    split_ifs with h1 h2 h3
    · simp
    · simp
    · simp [hup]
    · simp only [hi, dailyPart_cnt_shift]
      refine ⟨trivial, ?_⟩
      have hdf1 := dailyPart_cnt_failures
        (parse_hhmm cfg.daily_time1) "daily1" now oracle
        (idlePart cfg.after_last_msg_minutes now oracle 0
          (should_auto_unsubscribe cfg.max_no_reply_days now.epoch st).2).2.1
        (idlePart cfg.after_last_msg_minutes now oracle 0
          (should_auto_unsubscribe cfg.max_no_reply_days now.epoch st).2).1
      have hdf2 := dailyPart_cnt_failures
        (nudge (parse_hhmm cfg.daily_time1) (parse_hhmm cfg.daily_time2))
        "daily2" now oracle
        (dailyPart (parse_hhmm cfg.daily_time1) "daily1" now oracle
          (idlePart cfg.after_last_msg_minutes now oracle 0
            (should_auto_unsubscribe cfg.max_no_reply_days now.epoch st).2).2.1
          (idlePart cfg.after_last_msg_minutes now oracle 0
            (should_auto_unsubscribe cfg.max_no_reply_days now.epoch st).2).1).2.1
        (dailyPart (parse_hhmm cfg.daily_time1) "daily1" now oracle
          (idlePart cfg.after_last_msg_minutes now oracle 0
            (should_auto_unsubscribe cfg.max_no_reply_days now.epoch st).2).2.1
          (idlePart cfg.after_last_msg_minutes now oracle 0
            (should_auto_unsubscribe cfg.max_no_reply_days now.epoch st).2).1).1
      simp only [SessionState.mk.injEq, eq_self_iff_true, true_and, and_true]
      omega
  · intro auto_mode now_ts content
    unfold on_any_message
    dsimp only
    split_ifs <;> rfl
  · intro st2 h
    unfold should_auto_unsubscribe
    rw [h]
    split_ifs <;> rfl

theorem counter_noninterference_witness :
    (should_auto_unsubscribe 0 500
        ({ last_user_reply_ts := 7 } : SessionState)).1 =
      (should_auto_unsubscribe 0 500
        ({ last_user_reply_ts := 7, subscribed := true } : SessionState)).1 :=
  (counter_noninterference { max_no_reply_days := 0 } ⟨500, 2025, 1, 1, 0, 0, 0⟩
    (fun _ => none) { last_user_reply_ts := 7, subscribed := true } 3).2.2.2
    { last_user_reply_ts := 7 } (by decide)

theorem reminders_not_gated_by_quiet_witness :
    (tick { enable := true, quiet_hours := "00:00-23:59" }
        ⟨100, 2025, 10, 12, 9, 0, 10⟩ (fun _ _ => none)
        [("U", { subscribed := true })]
        [⟨"R1", "S", "water", "09:00|daily", 0⟩]).2 =
      check_reminders ⟨100, 2025, 10, 12, 9, 0, 10⟩
        [⟨"R1", "S", "water", "09:00|daily", 0⟩] :=
  (reminders_not_gated_by_quiet _ _ _ _ _ (by decide) (by decide)).1

/-! ## C7: history normalization is idempotent, drops empties, coerces roles -/

theorem dropWhile_head_not (p : α → Bool) (l : List α) (x : α) (t : List α)
    (h : l.dropWhile p = x :: t) : p x = false := by
  induction l with
  | nil => simp [List.dropWhile] at h
  | cons a l ih =>
    rw [List.dropWhile_cons] at h
    split at h
    · exact ih h
    · injection h with h1 h2
      subst h1
      rename_i hcond
      simpa using hcond

theorem dropWhile_idem (p : α → Bool) (l : List α) :
    (l.dropWhile p).dropWhile p = l.dropWhile p := by
  cases h : l.dropWhile p with
  | nil => rfl
  | cons x t =>
    rw [List.dropWhile_cons, if_neg (by simp [dropWhile_head_not p l x t h])]

theorem pyStripChars_idem (l : List Char) :
    pyStripChars (pyStripChars l) = pyStripChars l := by
  unfold pyStripChars
  have hA : (((l.dropWhile Char.isWhitespace).reverse.dropWhile
      Char.isWhitespace).reverse).dropWhile Char.isWhitespace =
      ((l.dropWhile Char.isWhitespace).reverse.dropWhile
        Char.isWhitespace).reverse := by
    cases hr : ((l.dropWhile Char.isWhitespace).reverse.dropWhile
        Char.isWhitespace).reverse with
    | nil => rfl
    | cons x t =>
      obtain ⟨pre, hpre⟩ :
          (l.dropWhile Char.isWhitespace).reverse.dropWhile Char.isWhitespace <:+
            (l.dropWhile Char.isWhitespace).reverse :=
        List.dropWhile_suffix Char.isWhitespace
      have hl1eq : l.dropWhile Char.isWhitespace = (x :: t) ++ pre.reverse := by
        have h2 := congrArg List.reverse hpre
        simp only [List.reverse_append, List.reverse_reverse] at h2
        rw [← h2, hr]
      have hx : Char.isWhitespace x = false :=
        dropWhile_head_not Char.isWhitespace l x (t ++ pre.reverse)
          (by rw [hl1eq]; rfl)
      rw [List.dropWhile_cons, if_neg (by simp [hx])]
  rw [hA, List.reverse_reverse, dropWhile_idem]

theorem pyStrip_idem (s : String) : pyStrip (pyStrip s) = pyStrip s := by
  have h : pyStrip (pyStrip s) = ⟨pyStripChars (pyStripChars s.data)⟩ := rfl
  rw [h, pyStripChars_idem]
  rfl

theorem nhi_good (item : Val) (p : String × String)
    (h : normalize_history_item item = some p) :
    (p.1 = "user" ∨ p.1 = "assistant" ∨ p.1 = "system") ∧
    p.2 ≠ "" ∧ pyStrip p.2 = p.2 := by
  unfold normalize_history_item at h
  dsimp only at h
  split at h
  · exact absurd h (by simp)
  · rename_i hne
    injection h with h
    subst h
    refine ⟨?_, hne, pyStrip_idem _⟩
    split_ifs with hcanon
    · exact hcanon
    · exact Or.inl rfl

theorem nhi_msgToVal (r c : String)
    (hr : r = "user" ∨ r = "assistant" ∨ r = "system")
    (hc : c ≠ "") (hct : pyStrip c = c) :
    normalize_history_item (msgToVal (r, c)) = some (r, c) := by
  have hext : extract_content (Val.vstr c) = c := by
    simp only [extract_content]
    exact hct
  rcases hr with rfl | rfl | rfl
  · have hrc : item_role_content (msgToVal ("user", c)) = (some "user", c) := by
      unfold item_role_content msgToVal
      dsimp only
      rw [show dget [("role", Val.vstr "user"), ("content", Val.vstr c)] "role" =
            Val.vstr "user" from rfl,
          show dget [("role", Val.vstr "user"), ("content", Val.vstr c)] "content" =
            Val.vstr c from rfl]
      simp only [show ∀ b, pyOr (Val.vstr "user") b = Val.vstr "user" from fun _ => rfl]
      rw [show normalize_role (Val.vstr "user") = some "user" from by decide,
        hext, if_neg hc]
    unfold normalize_history_item
    rw [hrc]
    dsimp only
    rw [hct, if_neg hc]
    simp
  · have hrc : item_role_content (msgToVal ("assistant", c)) =
        (some "assistant", c) := by
      unfold item_role_content msgToVal
      dsimp only
      rw [show dget [("role", Val.vstr "assistant"), ("content", Val.vstr c)] "role" =
            Val.vstr "assistant" from rfl,
          show dget [("role", Val.vstr "assistant"), ("content", Val.vstr c)]
            "content" = Val.vstr c from rfl]
      simp only [show ∀ b, pyOr (Val.vstr "assistant") b = Val.vstr "assistant" from
        fun _ => rfl]
      rw [show normalize_role (Val.vstr "assistant") = some "assistant" from by decide,
        hext, if_neg hc]
    unfold normalize_history_item
    rw [hrc]
    dsimp only
    rw [hct, if_neg hc]
    simp
  · have hrc : item_role_content (msgToVal ("system", c)) = (some "system", c) := by
      unfold item_role_content msgToVal
      dsimp only
      rw [show dget [("role", Val.vstr "system"), ("content", Val.vstr c)] "role" =
            Val.vstr "system" from rfl,
          show dget [("role", Val.vstr "system"), ("content", Val.vstr c)] "content" =
            Val.vstr c from rfl]
      simp only [show ∀ b, pyOr (Val.vstr "system") b = Val.vstr "system" from
        fun _ => rfl]
      rw [show normalize_role (Val.vstr "system") = some "system" from by decide,
        hext, if_neg hc]
    unfold normalize_history_item
    rw [hrc]
    dsimp only
    rw [hct, if_neg hc]
    simp

theorem filterMap_msgToVal (ms : List (String × String))
    (h : ∀ p ∈ ms, (p.1 = "user" ∨ p.1 = "assistant" ∨ p.1 = "system") ∧
      p.2 ≠ "" ∧ pyStrip p.2 = p.2) :
    (ms.map msgToVal).filterMap normalize_history_item = ms := by
  induction ms with
  | nil => rfl
  | cons p t ih =>
    have hp := h p (by simp)
    rw [List.map_cons, List.filterMap_cons,
      nhi_msgToVal p.1 p.2 hp.1 hp.2.1 hp.2.2,
      ih (fun q hq => h q (by simp [hq]))]

theorem normalize_from_data_good (o : Option Val) (p : String × String)
    (h : p ∈ normalize_from_data o) :
    (p.1 = "user" ∨ p.1 = "assistant" ∨ p.1 = "system") ∧
    p.2 ≠ "" ∧ pyStrip p.2 = p.2 := by
  match o with
  | none => simp [normalize_from_data] at h
  | some (.vlist xs) =>
    simp only [normalize_from_data] at h
    obtain ⟨item, _, hnhi⟩ := List.mem_filterMap.mp h
    exact nhi_good item p hnhi
  | some (.vdict kvs) =>
    simp only [normalize_from_data] at h
    cases hn : normalize_history_item (.vdict kvs) with
    | none => rw [hn] at h; simp at h
    | some x =>
      rw [hn] at h
      simp at h
      subst h
      exact nhi_good _ _ hn
  | some (.vstr s) => simp [normalize_from_data] at h
  | some .vnone => simp [normalize_from_data] at h
  | some (.vother rend) => simp [normalize_from_data] at h

theorem normalize_history_good (decode : String → Option Val) (raw : Val)
    (p : String × String) (h : p ∈ normalize_history decode raw) :
    (p.1 = "user" ∨ p.1 = "assistant" ∨ p.1 = "system") ∧
    p.2 ≠ "" ∧ pyStrip p.2 = p.2 := by
  cases raw with
  | vstr s => exact normalize_from_data_good (decode s) p h
  | vlist xs => exact normalize_from_data_good (some (.vlist xs)) p h
  | vdict kvs => exact normalize_from_data_good (some (.vdict kvs)) p h
  | vnone => exact normalize_from_data_good (some .vnone) p h
  | vother rend => exact normalize_from_data_good (some (.vother rend)) p h

/-- C7: History normalization is idempotent: feeding any normalized
output back through the normalizer (as the list of plain role/content
dicts it denotes) reproduces it exactly.  Moreover every emitted item
has non-empty, fully stripped content (so items whose extracted content
strips to empty are dropped, never emitted), and every emitted role is
canonical — in particular an item whose alias-mapped role string is not
canonical is coerced to role "user". -/
theorem normalize_idempotent_drop_coerce :
    (∀ (decode : String → Option Val) (raw : Val),
      normalize_history decode
          (Val.vlist ((normalize_history decode raw).map msgToVal)) =
        normalize_history decode raw) ∧
    (∀ (item : Val) (p : String × String),
      normalize_history_item item = some p → p.2 ≠ "" ∧ pyStrip p.2 = p.2) ∧
    (∀ (item : Val) (p : String × String),
      normalize_history_item item = some p →
      p.1 = "user" ∨ p.1 = "assistant" ∨ p.1 = "system") ∧
    (∀ (item : Val) (r0 : String),
      (item_role_content item).1 = some r0 →
      ¬(r0 = "user" ∨ r0 = "assistant" ∨ r0 = "system") →
      ∀ p, normalize_history_item item = some p → p.1 = "user") := by
  refine ⟨?_, ?_, ?_, ?_⟩
  · intro decode raw
    exact filterMap_msgToVal _ (fun p hp => normalize_history_good decode raw p hp)
  · intro item p h
    exact (nhi_good item p h).2
  · intro item p h
    exact (nhi_good item p h).1
  · intro item r0 hr0 hnc p hp
    unfold normalize_history_item at hp
    dsimp only at hp
    rw [hr0] at hp
    dsimp only at hp
    split at hp
    · exact absurd hp (by simp)
    · injection hp with hp
      subst hp
      dsimp only
      split_ifs <;> rfl

theorem normalize_idempotent_drop_coerce_witness :
    (("hi" : String) ≠ "" ∧ pyStrip "hi" = "hi") ∧
    normalize_history (fun _ => none)
        (Val.vlist ((normalize_history (fun _ => none)
          (Val.vlist [Val.vstr " hello ", Val.vstr "  "])).map msgToVal)) =
      normalize_history (fun _ => none)
        (Val.vlist [Val.vstr " hello ", Val.vstr "  "]) :=
  ⟨normalize_idempotent_drop_coerce.2.1 (Val.vstr " hi ") ("user", "hi") (by decide),
   normalize_idempotent_drop_coerce.1 (fun _ => none)
     (Val.vlist [Val.vstr " hello ", Val.vstr "  "])⟩

end AIReplay
